import Mathlib

/-!
Shallow embedding of the LOL-API persistence fragment:
`src/database.py` (engine, session factory, `get_db` scoped provider) and
`src/models.py` (the `User` declarative model on table `userinfo`).

The SQLAlchemy session semantics configured by the source
(`autocommit=False`, `autoflush=False`, close-releases-and-rolls-back) are
embedded as an explicit state machine over a list-of-rows store.
-/

namespace LolApi

/-- A column declaration, mirroring `sqlalchemy.Column(String, ...)`.
`nullableOpt = none` means the `nullable=` keyword was not passed. -/
structure ColumnDef where
  name : String
  sqlType : String
  primary_key : Bool
  nullableOpt : Option Bool
  deriving Repr, DecidableEq

/-- SQLAlchemy's effective nullability rule: an explicit `nullable=` wins;
otherwise a column is NOT NULL exactly when it is part of the primary key. -/
def ColumnDef.nullable (c : ColumnDef) : Bool :=
  match c.nullableOpt with
  | some b => b
  | none => !c.primary_key

/-- `__tablename__ = "userinfo"` from `src/models.py`. -/
def userTableName : String := "userinfo"

/-- `id = Column(String, primary_key=True)` from `src/models.py`. -/
def userCol_id : ColumnDef := ⟨"id", "String", true, none⟩

/-- `puuid = Column(String, primary_key=True)` from `src/models.py`. -/
def userCol_puuid : ColumnDef := ⟨"puuid", "String", true, none⟩

/-- `name = Column(String)` from `src/models.py`. -/
def userCol_name : ColumnDef := ⟨"name", "String", false, none⟩

/-- The full declared column list of the `User` model, in source order. -/
def userColumns : List ColumnDef := [userCol_id, userCol_puuid, userCol_name]

/-- Foreign keys declared on `User`: the import of `ForeignKey` is unused,
no `ForeignKey(...)` appears on any column. Each entry would be a
(column, target) pair. -/
def userForeignKeys : List (String × String) := []

/-- Table-level constraints declared beyond the column flags
(`__table_args__` is absent in `src/models.py`). -/
def userExtraConstraints : List String := []

/-- A persisted `User` row: primary-key columns are NOT NULL, `name` is
nullable. -/
structure UserRow where
  id : String
  puuid : String
  name : Option String
  deriving Repr, DecidableEq

/-- A row as handed to the session before constraint checking: every column
value may still be absent (SQL NULL). -/
structure RawRow where
  id : Option String
  puuid : Option String
  name : Option String
  deriving Repr, DecidableEq

/-- The value a raw row assigns to a declared column, by column name. -/
def colValue (raw : RawRow) (c : String) : Option String :=
  if c = "id" then raw.id
  else if c = "puuid" then raw.puuid
  else raw.name

/-- A raw row violates NOT NULL when some non-nullable declared column of
`User` is absent. -/
def notNullViolated (raw : RawRow) : Bool :=
  userColumns.any (fun c => !c.nullable && (colValue raw c.name).isNone)

/-- Errors surfaced by the underlying store; no custom error kinds exist in
the fragment. -/
inductive DBError where
  | duplicateKey
  | notNullViolation
  deriving Repr, DecidableEq

/-- `r` matches composite key `(i, p)`. -/
def rowMatches (i p : String) (r : UserRow) : Bool :=
  r.id = i && r.puuid = p

/-- Look a row up by its composite primary key `(id, puuid)`. -/
def lookupUser (rows : List UserRow) (i p : String) : Option UserRow :=
  rows.find? (rowMatches i p)

/-- Write one raw row against the currently visible rows: NOT NULL checks
from the declared schema first, then the composite-key uniqueness check. -/
def insertRow (visible : List UserRow) (raw : RawRow) : Except DBError UserRow :=
  if notNullViolated raw then .error .notNullViolation
  else
    match raw.id, raw.puuid with
    | some i, some p =>
        if (lookupUser visible i p).isSome then .error .duplicateKey
        else .ok ⟨i, p, raw.name⟩
    | _, _ => .error .notNullViolation

/-- Flush a pending buffer into the open transaction, validating each raw
row against the committed store plus the rows already flushed in this
transaction. Returns the new transaction contents. -/
def flushRows (store txn : List UserRow) : List RawRow → Except DBError (List UserRow)
  | [] => .ok txn
  | raw :: rest =>
      match insertRow (store ++ txn) raw with
      | .ok r => flushRows store (txn ++ [r]) rest
      | .error e => .error e

/-- `engine = create_engine(SQLALCHEMY_DATABASE_URL, connect_args={"check_same_thread": False})`:
the configuration facts the fragment fixes about the engine. -/
structure Engine where
  url : String
  check_same_thread : Bool
  deriving Repr, DecidableEq

/-- `SQLALCHEMY_DATABASE_URL = 'sqlite:///./loldata.db'` from `src/database.py`. -/
def SQLALCHEMY_DATABASE_URL : String := "sqlite:///./loldata.db"

/-- The single process-wide engine of `src/database.py`. -/
def engine : Engine := ⟨SQLALCHEMY_DATABASE_URL, false⟩

/-- The keyword configuration of `sessionmaker(autocommit=False, autoflush=False, bind=engine)`. -/
structure SessionConfig where
  autocommit : Bool
  autoflush : Bool
  bind : Engine
  deriving Repr, DecidableEq

/-- `SessionLocal = sessionmaker(autocommit=False, autoflush=False, bind=engine)`. -/
def SessionLocalConfig : SessionConfig := ⟨false, false, engine⟩

/-- A live session handle: the committed store it is connected to, the rows
already flushed in the open transaction, the unflushed pending buffer, the
factory configuration it was created with, and how many times `close()` has
run on it. -/
structure Session where
  store : List UserRow
  txn : List UserRow
  pending : List RawRow
  cfg : SessionConfig
  closeCount : Nat
  deriving Repr, DecidableEq

/-- `SessionLocal()`: a fresh handle bound to the process-wide engine with
the factory's fixed configuration, on top of committed store `db`. -/
def SessionLocal (db : List UserRow) : Session :=
  ⟨db, [], [], SessionLocalConfig, 0⟩

/-- The operations a caller can issue on a handle. -/
inductive Op where
  | add (raw : RawRow)
  | flush
  | commit
  | rollback
  deriving Repr, DecidableEq

/-- One session operation. With `autocommit=False` an `add` only buffers;
`commit` is the sole point where the store changes. A failed flush or commit
surfaces the store's error and leaves the committed store untouched. -/
def Session.doOp (s : Session) : Op → Except DBError Unit × Session
  | .add raw =>
      if s.cfg.autocommit then
        match insertRow s.store raw with
        | .ok r => (.ok (), { s with store := s.store ++ [r] })
        | .error e => (.error e, s)
      else (.ok (), { s with pending := s.pending ++ [raw] })
  | .flush =>
      match flushRows s.store s.txn s.pending with
      | .ok txn' => (.ok (), { s with txn := txn', pending := [] })
      | .error e => (.error e, s)
  | .commit =>
      match flushRows s.store s.txn s.pending with
      | .ok txn' => (.ok (), { s with store := s.store ++ txn', txn := [], pending := [] })
      | .error e => (.error e, s)
  | .rollback => (.ok (), { s with txn := [], pending := [] })

/-- A query by composite key. With `autoflush=True` the pending buffer is
flushed first (and a flush failure surfaces); with `autoflush=False` the
query sees only the committed store plus already-flushed transaction rows,
never the pending buffer. -/
def Session.runQuery (s : Session) (i p : String) :
    Except DBError (Option UserRow) × Session :=
  if s.cfg.autoflush then
    match flushRows s.store s.txn s.pending with
    | .ok txn' =>
        (.ok (lookupUser (s.store ++ txn') i p), { s with txn := txn', pending := [] })
    | .error e => (.error e, s)
  else (.ok (lookupUser (s.store ++ s.txn) i p), s)

/-- `db.close()`: releases the handle; with no commit issued, the open
transaction is rolled back (buffers discarded). Counts releases. -/
def Session.close (s : Session) : Session :=
  { s with txn := [], pending := [], closeCount := s.closeCount + 1 }

/-- `try: yield db finally: db.close()` — run the body, then run the
finaliser on the resulting state on every exit path, normal or failing. -/
def tryFinally {ε α : Type} (body : Session → Except ε α × Session)
    (fin : Session → Session) (s : Session) : Except ε α × Session :=
  let r := body s
  (r.1, fin r.2)

/-- `get_db` from `src/database.py`: create a session via `SessionLocal`,
yield it to the caller's code `use`, and always `close` it afterwards. -/
def get_db {ε α : Type} (db : List UserRow)
    (use : Session → Except ε α × Session) : Except ε α × Session :=
  tryFinally use Session.close (SessionLocal db)

/-- Run a caller's operation list on a handle, stopping at the first error
(the failing operation's exception aborts the rest of the scope). -/
def interpOps : List Op → Session → Except DBError Unit × Session
  | [], s => (.ok (), s)
  | op :: rest, s =>
      match s.doOp op with
      | (.ok _, s') => interpOps rest s'
      | (.error e, s') => (.error e, s')

/-- One concurrent unit of work: its local uncommitted buffers plus the
operations it still has to run. A failure aborts the rest of its scope
(`get_db` then closes the handle). -/
structure SideState where
  txn : List UserRow
  pending : List RawRow
  ops : List Op
  failed : Option DBError
  deriving Repr, DecidableEq

/-- A fresh unit of work over operation list `ops`, as produced by an
independent `SessionLocal()` handle. -/
def SideState.start (ops : List Op) : SideState :=
  ⟨[], [], ops, none⟩

/-- One operation of one unit of work against the shared committed store.
Only `commit` writes the store; everything else touches only the side's own
buffers. Mirrors `Session.doOp` with `autocommit=False`. -/
def localOp (store : List UserRow) (txn : List UserRow) (pending : List RawRow) :
    Op → Except DBError Unit × (List UserRow × List UserRow × List RawRow)
  | .add raw => (.ok (), (store, txn, pending ++ [raw]))
  | .flush =>
      match flushRows store txn pending with
      | .ok txn' => (.ok (), (store, txn', []))
      | .error e => (.error e, (store, txn, pending))
  | .commit =>
      match flushRows store txn pending with
      | .ok txn' => (.ok (), (store ++ txn', [], []))
      | .error e => (.error e, (store, txn, pending))
  | .rollback => (.ok (), (store, [], []))

/-- Give one unit of work a turn: run its next operation if any remain;
on failure its remaining operations are abandoned. -/
def sideTurn (store : List UserRow) (ss : SideState) : List UserRow × SideState :=
  match ss.ops with
  | [] => (store, ss)
  | op :: rest =>
      match localOp store ss.txn ss.pending op with
      | (.ok _, (store', txn', pending')) => (store', ⟨txn', pending', rest, none⟩)
      | (.error e, (store', txn', pending')) => (store', ⟨txn', pending', [], some e⟩)

/-- Two independently acquired handles over one shared committed store. -/
structure TwoSessions where
  store : List UserRow
  s1 : SideState
  s2 : SideState
  deriving Repr, DecidableEq

/-- Start both scopes over committed store `db`. -/
def TwoSessions.start (db : List UserRow) (ops1 ops2 : List Op) : TwoSessions :=
  ⟨db, SideState.start ops1, SideState.start ops2⟩

/-- One scheduler step: `true` gives session 1 the turn, `false` session 2. -/
def schedStep (st : TwoSessions) : Bool → TwoSessions
  | true =>
      let r := sideTurn st.store st.s1
      ⟨r.1, r.2, st.s2⟩
  | false =>
      let r := sideTurn st.store st.s2
      ⟨r.1, st.s1, r.2⟩

/-- Run an arbitrary interleaving schedule. -/
def runSched (sched : List Bool) (st : TwoSessions) : TwoSessions :=
  sched.foldl schedStep st

/-- What session 1 observes when it queries by composite key: the shared
committed store plus its own flushed transaction rows only
(`autoflush=False`, and the other handle's buffers are not consulted). -/
def query1 (st : TwoSessions) (i p : String) : Option UserRow :=
  lookupUser (st.store ++ st.s1.txn) i p

/-- A caller body that succeeds and leaves the session untouched. -/
def okUse (s : Session) : Except DBError Unit × Session := (.ok (), s)

/-- A caller body that raises partway through, after buffering one row. -/
def errUse (s : Session) : Except DBError Unit × Session :=
  (.error .duplicateKey, { s with pending := s.pending ++ [⟨some "x", some "y", none⟩] })

/-! ### Helper lemmas -/

theorem insertRow_id_none (visible : List UserRow) (raw : RawRow) (h : raw.id = none) :
    insertRow visible raw = .error .notNullViolation := by
  have hv : notNullViolated raw = true := by
    simp [notNullViolated, userColumns, userCol_id, userCol_puuid, userCol_name,
      ColumnDef.nullable, colValue, h]
  simp [insertRow, hv]

theorem insertRow_puuid_none (visible : List UserRow) (raw : RawRow) (h : raw.puuid = none) :
    insertRow visible raw = .error .notNullViolation := by
  have hv : notNullViolated raw = true := by
    simp [notNullViolated, userColumns, userCol_id, userCol_puuid, userCol_name,
      ColumnDef.nullable, colValue, h]
  simp [insertRow, hv]

theorem insertRow_ok_keys (visible : List UserRow) (raw : RawRow) (r : UserRow)
    (h : insertRow visible raw = .ok r) : raw.id = some r.id ∧ raw.puuid = some r.puuid := by
  rcases hid : raw.id with _ | i
  · rw [insertRow_id_none visible raw hid] at h; cases h
  · rcases hpu : raw.puuid with _ | p
    · rw [insertRow_puuid_none visible raw hpu] at h; cases h
    · unfold insertRow at h
      rw [hid, hpu] at h
      by_cases hn : notNullViolated raw = true
      · simp [hn] at h
      · simp [hn] at h
        by_cases hl : (lookupUser visible i p).isSome = true
        · simp [hl] at h
        · simp [hl] at h
          exact ⟨by rw [← h], by rw [← h]⟩

theorem doOp_cfg (s : Session) (op : Op) : ((s.doOp op).2).cfg = s.cfg := by
  cases op with
  | add raw =>
      by_cases hac : s.cfg.autocommit = true
      · simp only [Session.doOp, hac, if_true]
        rcases insertRow s.store raw with e | r <;> rfl
      · simp only [Session.doOp, hac, if_false, Bool.not_eq_true] at *
        simp [Session.doOp, hac]
  | flush =>
      simp only [Session.doOp]
      rcases flushRows s.store s.txn s.pending with e | t <;> rfl
  | commit =>
      simp only [Session.doOp]
      rcases flushRows s.store s.txn s.pending with e | t <;> rfl
  | rollback => rfl

theorem doOp_store_no_commit (s : Session) (op : Op)
    (hac : s.cfg.autocommit = false) (hop : op ≠ .commit) :
    ((s.doOp op).2).store = s.store := by
  cases op with
  | add raw => simp [Session.doOp, hac]
  | flush =>
      simp only [Session.doOp]
      rcases flushRows s.store s.txn s.pending with e | t <;> rfl
  | commit => exact absurd rfl hop
  | rollback => rfl

theorem interpOps_store_no_commit (ops : List Op) (s : Session)
    (hac : s.cfg.autocommit = false) (hop : Op.commit ∉ ops) :
    ((interpOps ops s).2).store = s.store := by
  induction ops generalizing s with
  | nil => rfl
  | cons op rest ih =>
      have hop1 : op ≠ Op.commit := by
        intro h; exact hop (h ▸ List.mem_cons_self op rest)
      have hoprest : Op.commit ∉ rest := fun h => hop (List.mem_cons_of_mem op h)
      have hst := doOp_store_no_commit s op hac hop1
      have hcfg := doOp_cfg s op
      unfold interpOps
      rcases hdo : s.doOp op with ⟨res, s'⟩
      rw [hdo] at hst hcfg
      cases res with
      | ok u =>
          simp only []
          rw [ih s' (by rw [hcfg]; exact hac) hoprest, hst]
      | error e => exact hst

theorem localOp_store_no_commit (store txn : List UserRow) (pending : List RawRow)
    (op : Op) (hop : op ≠ .commit) :
    ((localOp store txn pending op).2).1 = store := by
  cases op with
  | add raw => rfl
  | flush =>
      simp only [localOp]
      rcases flushRows store txn pending with e | t <;> rfl
  | commit => exact absurd rfl hop
  | rollback => rfl

theorem sideTurn_ops_length (store : List UserRow) (ss : SideState) :
    ((sideTurn store ss).2).ops.length ≤ ss.ops.length - 1 := by
  rcases hops : ss.ops with _ | ⟨op, rest⟩
  · simp [sideTurn, hops]
  · simp only [sideTurn, hops]
    rcases localOp store ss.txn ss.pending op with ⟨res, store', txn', pending'⟩
    cases res <;> simp

theorem schedStep_false_s1 (st : TwoSessions) : (schedStep st false).s1 = st.s1 := rfl

theorem runSched_s1_ops (sched : List Bool) (st : TwoSessions) :
    ((runSched sched st).s1).ops.length ≤ st.s1.ops.length - sched.count true := by
  induction sched generalizing st with
  | nil => simp [runSched]
  | cons b rest ih =>
      have hstep : runSched (b :: rest) st = runSched rest (schedStep st b) := rfl
      rw [hstep]
      cases b with
      | true =>
          have h1 : ((schedStep st true).s1).ops.length ≤ st.s1.ops.length - 1 := by
            simpa [schedStep] using sideTurn_ops_length st.store st.s1
          calc ((runSched rest (schedStep st true)).s1).ops.length
              ≤ ((schedStep st true).s1).ops.length - rest.count true := ih _
            _ ≤ (st.s1.ops.length - 1) - rest.count true := by
                exact Nat.sub_le_sub_right h1 _
            _ = st.s1.ops.length - (rest.count true + 1) := by
                rw [Nat.sub_sub, Nat.add_comm]
            _ = st.s1.ops.length - (List.count true (true :: rest)) := by
                rw [List.count_cons]; simp
      | false =>
          have h2 : (List.count true (false :: rest)) = rest.count true := by
            rw [List.count_cons]; simp
          rw [h2]
          calc ((runSched rest (schedStep st false)).s1).ops.length
              ≤ ((schedStep st false).s1).ops.length - rest.count true := ih _
            _ = st.s1.ops.length - rest.count true := by rw [schedStep_false_s1]

theorem schedStep_true_s2 (st : TwoSessions) : (schedStep st true).s2 = st.s2 := rfl

theorem runSched_s2_ops (sched : List Bool) (st : TwoSessions) :
    ((runSched sched st).s2).ops.length ≤ st.s2.ops.length - sched.count false := by
  induction sched generalizing st with
  | nil => simp [runSched]
  | cons b rest ih =>
      have hstep : runSched (b :: rest) st = runSched rest (schedStep st b) := rfl
      rw [hstep]
      cases b with
      | false =>
          have h1 : ((schedStep st false).s2).ops.length ≤ st.s2.ops.length - 1 := by
            simpa [schedStep] using sideTurn_ops_length st.store st.s2
          calc ((runSched rest (schedStep st false)).s2).ops.length
              ≤ ((schedStep st false).s2).ops.length - rest.count false := ih _
            _ ≤ (st.s2.ops.length - 1) - rest.count false := by
                exact Nat.sub_le_sub_right h1 _
            _ = st.s2.ops.length - (rest.count false + 1) := by
                rw [Nat.sub_sub, Nat.add_comm]
            _ = st.s2.ops.length - (List.count false (false :: rest)) := by
                rw [List.count_cons]; simp
      | true =>
          have h2 : (List.count false (true :: rest)) = rest.count false := by
            rw [List.count_cons]; simp
          rw [h2]
          calc ((runSched rest (schedStep st true)).s2).ops.length
              ≤ ((schedStep st true).s2).ops.length - rest.count false := ih _
            _ = st.s2.ops.length - rest.count false := by rw [schedStep_true_s2]

/-! ### Claim theorems -/

/-- C1: every handle obtained from `get_db` is closed exactly once when the
scope ends, whether the caller's body returns normally or raises a failure
partway through. -/
theorem get_db_closes_exactly_once {ε α : Type} (db : List UserRow)
    (use : Session → Except ε α × Session)
    (h : ((use (SessionLocal db)).2).closeCount = 0) :
    ((get_db db use).2).closeCount = 1 := by
  simp [get_db, tryFinally, Session.close, h]

/-- Witness for C1 at two concrete caller bodies: one that succeeds and one
that raises partway through. -/
theorem get_db_closes_exactly_once_witness :
    ((get_db [] okUse).2).closeCount = 1 ∧ ((get_db [] errUse).2).closeCount = 1 :=
  ⟨get_db_closes_exactly_once [] okUse rfl, get_db_closes_exactly_once [] errUse rfl⟩

/-- C3: a failure raised during the caller's use of the handle propagates
out of `get_db` exactly as raised — no retry, no wrapping, no suppression —
and the release step has already run on the session the caller left behind. -/
theorem get_db_propagates_failure_after_release {ε α : Type} (db : List UserRow)
    (use : Session → Except ε α × Session) (e : ε)
    (h : (use (SessionLocal db)).1 = .error e) :
    (get_db db use).1 = .error e ∧
    (get_db db use).2 = Session.close (use (SessionLocal db)).2 ∧
    ((get_db db use).2).closeCount = ((use (SessionLocal db)).2).closeCount + 1 :=
  ⟨by simp [get_db, tryFinally, h], rfl, rfl⟩

/-- Witness for C3 at a concrete failing body. -/
theorem get_db_propagates_failure_after_release_witness :
    (get_db [] errUse).1 = .error DBError.duplicateKey ∧
    (get_db [] errUse).2 = Session.close (errUse (SessionLocal [])).2 ∧
    ((get_db [] errUse).2).closeCount = ((errUse (SessionLocal [])).2).closeCount + 1 :=
  get_db_propagates_failure_after_release [] errUse DBError.duplicateKey rfl

/-- C4: the declared schema surface is exactly table `userinfo` with columns
`id` (String, part of the primary key), `puuid` (String, part of the primary
key) and `name` (String, nullable, not part of the identity), with no other
columns, foreign keys or constraints declared. -/
theorem user_schema_surface :
    userTableName = "userinfo" ∧
    userColumns = [⟨"id", "String", true, none⟩, ⟨"puuid", "String", true, none⟩,
      ⟨"name", "String", false, none⟩] ∧
    userCol_id.nullable = false ∧ userCol_puuid.nullable = false ∧
    userCol_name.nullable = true ∧ userCol_name.primary_key = false ∧
    userForeignKeys = [] ∧ userExtraConstraints = [] :=
  ⟨rfl, rfl, rfl, rfl, rfl, rfl, rfl, rfl⟩

/-- C7: the session provider's connection target is the fixed relative-path
constant `sqlite:///./loldata.db`, and every handle it produces carries the
single process-wide engine and factory configuration. -/
theorem fixed_connection_target :
    SQLALCHEMY_DATABASE_URL = "sqlite:///./loldata.db" ∧
    engine = ⟨SQLALCHEMY_DATABASE_URL, false⟩ ∧
    SessionLocalConfig = ⟨false, false, engine⟩ ∧
    ∀ db : List UserRow, (SessionLocal db).cfg = SessionLocalConfig ∧
      ((SessionLocal db).cfg.bind).url = "sqlite:///./loldata.db" :=
  ⟨rfl, rfl, rfl, fun _ => ⟨rfl, rfl⟩⟩

/-- C9: the primary-key columns `id` and `puuid` are implicitly NOT NULL
even though only `name` has its nullability spelled out: writing a row whose
key column is null fails with a NOT NULL violation, and every successfully
persisted row carries non-null values for both key columns. -/
theorem primary_key_columns_not_null :
    (userCol_id.nullableOpt = none ∧ userCol_id.nullable = false) ∧
    (userCol_puuid.nullableOpt = none ∧ userCol_puuid.nullable = false) ∧
    userCol_name.nullable = true ∧
    (∀ (visible : List UserRow) (raw : RawRow),
      raw.id = none ∨ raw.puuid = none →
      insertRow visible raw = .error .notNullViolation) ∧
    (∀ (visible : List UserRow) (raw : RawRow) (r : UserRow),
      insertRow visible raw = .ok r → raw.id = some r.id ∧ raw.puuid = some r.puuid) := by
  refine ⟨⟨rfl, rfl⟩, ⟨rfl, rfl⟩, rfl, ?_, ?_⟩
  · intro visible raw h
    rcases h with h | h
    · exact insertRow_id_none visible raw h
    · exact insertRow_puuid_none visible raw h
  · intro visible raw r h
    exact insertRow_ok_keys visible raw r h

/-- Witness for C9: a null-`id` write fails, and a concrete successful write
keeps both key values. -/
theorem primary_key_columns_not_null_witness :
    insertRow [] ⟨none, some "p", some "n"⟩ = .error DBError.notNullViolation ∧
    ((⟨some "a", some "b", none⟩ : RawRow).id = some (UserRow.mk "a" "b" none).id ∧
      (⟨some "a", some "b", none⟩ : RawRow).puuid = some (UserRow.mk "a" "b" none).puuid) :=
  ⟨primary_key_columns_not_null.2.2.2.1 [] ⟨none, some "p", some "n"⟩ (Or.inl rfl),
   primary_key_columns_not_null.2.2.2.2 [] ⟨some "a", some "b", none⟩ ⟨"a", "b", none⟩
     (by rfl)⟩

/-- C2: with the factory's `autocommit=False` configuration, a scope that
issues no commit signal leaves no changes visible after it ends: the
committed store is exactly what it was, and the handle's buffered changes
are discarded on close (rollback-by-default). -/
theorem no_commit_rolls_back (db : List UserRow) (ops : List Op)
    (h : Op.commit ∉ ops) :
    ((get_db db (interpOps ops)).2).store = db ∧
    ((get_db db (interpOps ops)).2).txn = [] ∧
    ((get_db db (interpOps ops)).2).pending = [] := by
  have hs : ((interpOps ops (SessionLocal db)).2).store = db :=
    interpOps_store_no_commit ops (SessionLocal db) rfl h
  exact ⟨by simpa [get_db, tryFinally, Session.close] using hs, rfl, rfl⟩

/-- Witness for C2: an add-then-flush scope with no commit leaves the empty
store empty. -/
theorem no_commit_rolls_back_witness :
    ((get_db [] (interpOps [Op.add ⟨some "a", some "b", none⟩, Op.flush])).2).store = [] ∧
    ((get_db [] (interpOps [Op.add ⟨some "a", some "b", none⟩, Op.flush])).2).txn = [] ∧
    ((get_db [] (interpOps [Op.add ⟨some "a", some "b", none⟩, Op.flush])).2).pending = [] :=
  no_commit_rolls_back [] [Op.add ⟨some "a", some "b", none⟩, Op.flush] (by decide)

/-- C5: inserting a second record that shares the (id, puuid) pair of an
existing record fails with a duplicate-key error rather than silently
overwriting: the commit raises, the committed store is unchanged, and the
original record is still the one found under that key. -/
theorem duplicate_key_insert_fails (db : List UserRow) (i p : String)
    (r : UserRow) (nm : Option String) (h : lookupUser db i p = some r) :
    (get_db db (interpOps [Op.add ⟨some i, some p, nm⟩, Op.commit])).1
      = .error DBError.duplicateKey ∧
    ((get_db db (interpOps [Op.add ⟨some i, some p, nm⟩, Op.commit])).2).store = db ∧
    lookupUser ((get_db db (interpOps [Op.add ⟨some i, some p, nm⟩, Op.commit])).2).store i p
      = some r := by
  have hins : insertRow db ⟨some i, some p, nm⟩ = .error .duplicateKey := by
    simp [insertRow, notNullViolated, userColumns, userCol_id, userCol_puuid, userCol_name,
      ColumnDef.nullable, colValue, h]
  refine ⟨?_, ?_, ?_⟩ <;>
    simp [get_db, tryFinally, interpOps, Session.doOp, SessionLocal, SessionLocalConfig,
      flushRows, hins, Session.close, h]

/-- Witness for C5 on a one-row store. -/
theorem duplicate_key_insert_fails_witness :
    (get_db [⟨"a", "b", none⟩]
        (interpOps [Op.add ⟨some "a", some "b", some "c"⟩, Op.commit])).1
      = .error DBError.duplicateKey ∧
    ((get_db [⟨"a", "b", none⟩]
        (interpOps [Op.add ⟨some "a", some "b", some "c"⟩, Op.commit])).2).store
      = [⟨"a", "b", none⟩] ∧
    lookupUser ((get_db [⟨"a", "b", none⟩]
        (interpOps [Op.add ⟨some "a", some "b", some "c"⟩, Op.commit])).2).store "a" "b"
      = some ⟨"a", "b", none⟩ :=
  duplicate_key_insert_fails [⟨"a", "b", none⟩] "a" "b" ⟨"a", "b", none⟩ (some "c") rfl

/-- C6: inserting a record under a fresh (id, puuid) pair and committing,
then reading back by that composite key, succeeds and returns a record whose
name equals the inserted name. -/
theorem insert_then_lookup_roundtrip (db : List UserRow) (i p : String)
    (nm : Option String) (h : lookupUser db i p = none) :
    (get_db db (interpOps [Op.add ⟨some i, some p, nm⟩, Op.commit])).1 = .ok () ∧
    lookupUser ((get_db db (interpOps [Op.add ⟨some i, some p, nm⟩, Op.commit])).2).store i p
      = some ⟨i, p, nm⟩ := by
  have hins : insertRow db ⟨some i, some p, nm⟩ = .ok ⟨i, p, nm⟩ := by
    simp [insertRow, notNullViolated, userColumns, userCol_id, userCol_puuid, userCol_name,
      ColumnDef.nullable, colValue, h]
  have hmatch : rowMatches i p ⟨i, p, nm⟩ = true := by simp [rowMatches]
  have hfind : db.find? (rowMatches i p) = none := h
  constructor
  · simp [get_db, tryFinally, interpOps, Session.doOp, SessionLocal, SessionLocalConfig,
      flushRows, hins]
  · simp [get_db, tryFinally, interpOps, Session.doOp, SessionLocal, SessionLocalConfig,
      flushRows, hins, Session.close, lookupUser, List.find?_append, hfind, hmatch]

/-- Witness for C6 on the empty store. -/
theorem insert_then_lookup_roundtrip_witness :
    (get_db [] (interpOps [Op.add ⟨some "a", some "b", some "n"⟩, Op.commit])).1 = .ok () ∧
    lookupUser ((get_db []
        (interpOps [Op.add ⟨some "a", some "b", some "n"⟩, Op.commit])).2).store "a" "b"
      = some ⟨"a", "b", some "n"⟩ :=
  insert_then_lookup_roundtrip [] "a" "b" (some "n") rfl

/-- C10: sessions from the factory are created with automatic flushing
disabled: a query neither flushes nor sees the pending buffer, an add only
buffers, pending rows reach the transaction only on an explicit flush, and
the committed store changes only on commit. -/
theorem autoflush_disabled (s : Session) (h : s.cfg = SessionLocalConfig) :
    (∀ i p, s.runQuery i p = (.ok (lookupUser (s.store ++ s.txn) i p), s)) ∧
    (∀ raw, (s.doOp (.add raw)).2 = { s with pending := s.pending ++ [raw] }) ∧
    (∀ txn', flushRows s.store s.txn s.pending = .ok txn' →
      (s.doOp .flush).2 = { s with txn := txn', pending := [] }) ∧
    (∀ op, op ≠ Op.commit → ((s.doOp op).2).store = s.store) := by
  have haf : s.cfg.autoflush = false := by rw [h]; rfl
  have hac : s.cfg.autocommit = false := by rw [h]; rfl
  refine ⟨?_, ?_, ?_, ?_⟩
  · intro i p; simp [Session.runQuery, haf]
  · intro raw; simp [Session.doOp, hac]
  · intro txn' hf; simp [Session.doOp, hf]
  · intro op hop; exact doOp_store_no_commit s op hac hop

/-- Witness for C10 on a session with one pending row: the query ignores the
pending buffer and an explicit flush moves it into the transaction. -/
theorem autoflush_disabled_witness :
    ((Session.mk [] [] [⟨some "a", some "b", none⟩] SessionLocalConfig 0).runQuery "a" "b"
      = (.ok (lookupUser (([] : List UserRow) ++ []) "a" "b"),
         Session.mk [] [] [⟨some "a", some "b", none⟩] SessionLocalConfig 0)) ∧
    (((Session.mk [] [] [⟨some "a", some "b", none⟩] SessionLocalConfig 0).doOp .flush).2
      = { Session.mk [] [] [⟨some "a", some "b", none⟩] SessionLocalConfig 0 with
          txn := [⟨"a", "b", none⟩], pending := [] }) :=
  ⟨(autoflush_disabled (Session.mk [] [] [⟨some "a", some "b", none⟩] SessionLocalConfig 0)
      rfl).1 "a" "b",
   (autoflush_disabled (Session.mk [] [] [⟨some "a", some "b", none⟩] SessionLocalConfig 0)
      rfl).2.2.1 [⟨"a", "b", none⟩] (by rfl)⟩

/-- C8: two independently acquired handles interleave without deadlock —
every schedule that gives each side enough turns drains both scopes, no
configuration gets stuck — and without sharing uncommitted state: one
handle's query result is independent of the other's local buffers, and a
non-commit step by the other handle never changes what the first observes;
the engine additionally tolerates access from threads other than the one
that created it. -/
theorem two_handles_isolated_no_deadlock :
    (∀ (db : List UserRow) (ops1 ops2 : List Op) (sched : List Bool),
      ops1.length ≤ sched.count true → ops2.length ≤ sched.count false →
      ((runSched sched (TwoSessions.start db ops1 ops2)).s1).ops = [] ∧
      ((runSched sched (TwoSessions.start db ops1 ops2)).s2).ops = []) ∧
    (∀ (st : TwoSessions) (l2 l2' : SideState) (i p : String),
      query1 { st with s2 := l2 } i p = query1 { st with s2 := l2' } i p) ∧
    (∀ (st : TwoSessions) (op : Op) (rest : List Op),
      st.s2.ops = op :: rest → op ≠ Op.commit →
      ∀ i p, query1 (schedStep st false) i p = query1 st i p) ∧
    engine.check_same_thread = false := by
  refine ⟨?_, ?_, ?_, rfl⟩
  · intro db ops1 ops2 sched h1 h2
    constructor
    · have hlen := runSched_s1_ops sched (TwoSessions.start db ops1 ops2)
      have h0 : ((runSched sched (TwoSessions.start db ops1 ops2)).s1).ops.length = 0 :=
        Nat.le_zero.mp (by
          simpa [TwoSessions.start, SideState.start, Nat.sub_eq_zero_of_le h1] using hlen)
      exact List.length_eq_zero.mp h0
    · have hlen := runSched_s2_ops sched (TwoSessions.start db ops1 ops2)
      have h0 : ((runSched sched (TwoSessions.start db ops1 ops2)).s2).ops.length = 0 :=
        Nat.le_zero.mp (by
          simpa [TwoSessions.start, SideState.start, Nat.sub_eq_zero_of_le h2] using hlen)
      exact List.length_eq_zero.mp h0
  · intro st l2 l2' i p; rfl
  · intro st op rest h2 hop i p
    have hs := localOp_store_no_commit st.store st.s2.txn st.s2.pending op hop
    unfold schedStep sideTurn
    rw [h2]
    rcases hl : localOp st.store st.s2.txn st.s2.pending op with ⟨res, store', txn', pending'⟩
    rw [hl] at hs
    cases res <;> simp_all [query1]

/-- Witness for C8: a concrete two-op interleaving drains both scopes, and a
buffering step by the second handle leaves the first handle's view intact. -/
theorem two_handles_isolated_no_deadlock_witness :
    (((runSched [true, false] (TwoSessions.start [] [Op.rollback] [Op.flush])).s1).ops = [] ∧
     ((runSched [true, false] (TwoSessions.start [] [Op.rollback] [Op.flush])).s2).ops = []) ∧
    query1 (schedStep (TwoSessions.start [] [] [Op.add ⟨some "a", some "b", none⟩]) false)
        "x" "y"
      = query1 (TwoSessions.start [] [] [Op.add ⟨some "a", some "b", none⟩]) "x" "y" :=
  ⟨two_handles_isolated_no_deadlock.1 [] [Op.rollback] [Op.flush] [true, false]
      (by decide) (by decide),
   two_handles_isolated_no_deadlock.2.2.1
      (TwoSessions.start [] [] [Op.add ⟨some "a", some "b", none⟩])
      (Op.add ⟨some "a", some "b", none⟩) [] rfl (by decide) "x" "y"⟩

end LolApi
